import Mathlib

/-!
Verification development for the CareerGraph roadmap pipeline
(`careergraph/agents/graph.py`, `careergraph/utils/search.py`,
`careergraph/models/schemas.py`).

The Python code is shallowly embedded:

* Parsed JSON / Python objects are modeled by the inductive `PyVal`
  (floats are not modeled; none of the verified code paths involve them).
* `json.loads` (an external library call whose success depends on the
  LLM-produced text) is modeled as an abstract parameter
  `parse : String → Option PyVal`; `Option.none` models a raised
  `json.JSONDecodeError`.
* The LLM (`llm.invoke`) is modeled by an `Oracle` carrying the completion
  text each stage receives, and the Serper web API by a `SearchEnv` whose
  `post` field models `requests.post` (`Option.none` models a transport
  exception; the inner `Option PyVal` models `response.json()`).
* Python operations that can raise (`d[k]`, `d.get`, iteration over a
  non-list, `str.lower` on a non-string, ...) are modeled in the `Option`
  monad; `Option.none` models a raised exception, which the stage-level
  `try/except` blocks turn into the documented failure behavior.
* The LangGraph state channel `research_data : Annotated[List[dict],
  operator.add]` merges a node's returned value into the channel with list
  concatenation; `applyStage` applies that reducer.
-/

/-- Model of a Python value as produced by `json.loads` (and passed around
between the agents).  JSON floats are not modeled. -/
inductive PyVal where
  | none : PyVal
  | bool : Bool → PyVal
  | int : Int → PyVal
  | str : String → PyVal
  | list : List PyVal → PyVal
  | dict : List (String × PyVal) → PyVal

/-- Python truthiness (`if x:`) for the modeled values. -/
def PyVal.truthy : PyVal → Bool
  | .none => false
  | .bool b => b
  | .int n => !(n == 0)
  | .str s => !(s == "")
  | .list l => !l.isEmpty
  | .dict kvs => !kvs.isEmpty

/-- First-match association-list lookup, modeling `d[k]` / `d.get(k)` on a
Python dict (keys produced by `json.loads` are unique). -/
def lookupKey : List (String × PyVal) → String → Option PyVal
  | [], _ => Option.none
  | (k', v) :: rest, k => if k' = k then some v else lookupKey rest k

/-- `d.get(k, default)` on a Python dict. -/
def lookupD (kvs : List (String × PyVal)) (k : String) (d : PyVal) : PyVal :=
  (lookupKey kvs k).getD d

/-- `d[k] = v` on a Python dict: replace the binding if present, else append. -/
def setKey : List (String × PyVal) → String → PyVal → List (String × PyVal)
  | [], k, v => [(k, v)]
  | (k', v') :: rest, k, v =>
      if k' = k then (k, v) :: rest else (k', v') :: setKey rest k v

/-- View a value as a dict; `Option.none` models the `AttributeError` /
`TypeError` raised when dict operations hit a non-dict. -/
def asDict : PyVal → Option (List (String × PyVal))
  | .dict kvs => some kvs
  | _ => Option.none

/-- View a value as a list; `Option.none` models the `TypeError` raised when
iterating or slicing a non-list. -/
def asList : PyVal → Option (List PyVal)
  | .list l => some l
  | _ => Option.none

/-- View a value as a string; `Option.none` models the `TypeError` raised by
string operations on a non-string, or a pydantic `str`-field rejection. -/
def asStr : PyVal → Option String
  | .str s => some s
  | _ => Option.none

/-- Pydantic `int` field validation. -/
def asInt : PyVal → Option Int
  | .int n => some n
  | _ => Option.none

/-- Pydantic `Optional[str]` field validation (`None` or a string). -/
def asOptStr : PyVal → Option (Option String)
  | .none => some Option.none
  | .str s => some (some s)
  | _ => Option.none

/-- `Option`-valued map over a list: the whole computation fails when any
element fails, mirroring an exception escaping a Python loop. -/
def mapOpt (f : α → Option β) : List α → Option (List β)
  | [] => some []
  | a :: as' =>
      match f a, mapOpt f as' with
      | some b, some bs => some (b :: bs)
      | _, _ => Option.none

/-- The apostrophe used by Python `repr` for strings and dict keys. -/
def pyQuote : String := String.singleton (Char.ofNat 39)

mutual

/-- Python `repr` of a modeled value (used by `str` on containers). -/
def pyRepr : PyVal → String
  | .none => "None"
  | .bool true => "True"
  | .bool false => "False"
  | .int n => toString n
  | .str s => pyQuote ++ s ++ pyQuote
  | .list xs => "[" ++ String.intercalate ", " (pyReprList xs) ++ "]"
  | .dict kvs => "\x7b" ++ String.intercalate ", " (pyReprKVList kvs) ++ "\x7d"

/-- `repr` of each element of a list. -/
def pyReprList : List PyVal → List String
  | [] => []
  | v :: vs => pyRepr v :: pyReprList vs

/-- `repr` of each `key: value` entry of a dict. -/
def pyReprKVList : List (String × PyVal) → List String
  | [] => []
  | (k, v) :: kvs => (pyQuote ++ k ++ pyQuote ++ ": " ++ pyRepr v) :: pyReprKVList kvs

end

/-- Python `str()` as used by f-string interpolation: identity on strings,
`repr`-style rendering otherwise. -/
def pyStr : PyVal → String
  | .str s => s
  | v => pyRepr v

/-! ## The payload extractor (`extract_json`, graph.py lines 14-26)

`extract_json` runs two `re.search` calls with `re.DOTALL`:

1. the fenced-block pattern with a lazy group (backtick fence, optional
   `json` tag, whitespace, `(\x7b.*?\x7d)`, whitespace, closing fence);
2. the greedy pattern (opening brace `.*` closing brace);

and falls back to returning the input.  Both regexes are modeled directly,
following Python's leftmost-match / backtracking-priority semantics. -/

/-- Python's `\s` character class (`re` default Unicode semantics). -/
def isPyWs (c : Char) : Bool :=
  let n := c.toNat
  n == 32 || n == 9 || n == 10 || n == 13 || n == 11 || n == 12 ||
  (28 ≤ n && n ≤ 31) || n == 0x85 || n == 0xa0 || n == 0x1680 ||
  (0x2000 ≤ n && n ≤ 0x200a) || n == 0x2028 || n == 0x2029 ||
  n == 0x202f || n == 0x205f || n == 0x3000

/-- The literal backtick fence of the first regex. -/
def fenceChars : List Char := "```".toList

/-- The optional `json` tag of the first regex. -/
def jsonTagChars : List Char := "json".toList

/-- After the group's closing brace: `\s*` then the closing fence.  The
preference order of `\s*` is irrelevant here, so this is plain existence of
a whitespace run followed by the fence. -/
def wsThenFence : List Char → Bool
  | [] => false
  | c :: rest =>
      fenceChars.isPrefixOf (c :: rest) || (isPyWs c && wsThenFence rest)

/-- The lazy part `(.*?\x7d)` of the group plus its continuation
`\s*(fence)`: extend the lazy `.*?` one character at a time (shortest match
first, Python's priority for `*?`) until a closing brace whose tail
matches is found.  Returns the group's characters after the opening brace,
closing brace included. -/
def lazyBody : List Char → Option (List Char)
  | [] => Option.none
  | c :: rest =>
      if c == '\x7d' && wsThenFence rest then some ['\x7d']
      else
        match lazyBody rest with
        | some b => some (c :: b)
        | Option.none => Option.none

/-- After the fence (and optional tag): `\s*` then the brace group.  Since
`\s*` is followed by a non-whitespace literal `\x7b`, the greedy run is
forced: skip the maximal whitespace run, then require the opening brace. -/
def afterFence : List Char → Option (List Char)
  | [] => Option.none
  | c :: rest =>
      if isPyWs c then afterFence rest
      else if c == '\x7b' then (lazyBody rest).map (fun b => c :: b)
      else Option.none

/-- Try to match the fenced-block regex at this exact position (the leading
fence, the optional `json` tag preferring presence, then `afterFence`). -/
def matchFenceAt (l : List Char) : Option (List Char) :=
  if fenceChars.isPrefixOf l then
    let r := l.drop 3
    if jsonTagChars.isPrefixOf r then
      match afterFence (r.drop 4) with
      | some g => some g
      | Option.none => afterFence r
    else afterFence r
  else Option.none

/-- `re.search` for the fenced-block regex: scan start positions left to
right and return the first (leftmost) match's group. -/
def searchFence : List Char → Option (List Char)
  | [] => Option.none
  | c :: rest =>
      match matchFenceAt (c :: rest) with
      | some g => some g
      | Option.none => searchFence rest

/-- Greedy `.*` continuation of the second regex: everything up to and
including the last closing brace of the list (greedy `.*` backtracks from
the end to the last `\x7d`). -/
def greedyToLastClose : List Char → Option (List Char)
  | [] => Option.none
  | c :: rest =>
      match greedyToLastClose rest with
      | some sp => some (c :: sp)
      | Option.none => if c == '\x7d' then some [c] else Option.none

/-- `re.search` for the second regex (opening brace, greedy `.*`, closing
brace, `re.DOTALL`): leftmost opening brace that has a closing brace after
it, spanning to the last closing brace. -/
def braceSpan : List Char → Option (List Char)
  | [] => Option.none
  | c :: rest =>
      if c == '\x7b' then
        match greedyToLastClose rest with
        | some sp => some (c :: sp)
        | Option.none => braceSpan rest
      else braceSpan rest

/-- `extract_json` (graph.py lines 14-26): first the fenced-block regex,
then the bare-object regex, else the input unchanged. -/
def extract_json (text : String) : String :=
  match searchFence text.toList with
  | some g => String.mk g
  | Option.none =>
      match braceSpan text.toList with
      | some sp => String.mk sp
      | Option.none => text

/-- Decidable form of "the text has an opening brace with a closing brace
somewhere after it" (the condition for either regex to find anything). -/
def hasBracePair : List Char → Bool
  | [] => false
  | c :: rest => ((c == '\x7b') && rest.contains '\x7d') || hasBracePair rest

/-! ## Typed data model (`models/schemas.py`) -/

/-- A learning resource (`Resource`, schemas.py lines 6-14). -/
structure Resource where
  title : String
  url : String
  type : String
  description : String
  duration : Option String
  source : Option String
  published_date : Option String

/-- A roadmap node (`RoadmapNode`, schemas.py lines 17-27). -/
structure RoadmapNode where
  id : String
  title : String
  description : String
  level : Int
  parent_id : Option String
  resources : List Resource
  prerequisites : List String
  estimated_time : Option String

/-- Pydantic validation of `Resource(**r)`: `r` must be a dict, the four
required fields must be present strings, the optional fields default to
`None`; extra keys are ignored. -/
def convertResource (v : PyVal) : Option Resource := do
  let kvs ← asDict v
  let title ← (lookupKey kvs "title").bind asStr
  let url ← (lookupKey kvs "url").bind asStr
  let ty ← (lookupKey kvs "type").bind asStr
  let description ← (lookupKey kvs "description").bind asStr
  let duration ← asOptStr (lookupD kvs "duration" .none)
  let source ← asOptStr (lookupD kvs "source" .none)
  let published_date ← asOptStr (lookupD kvs "published_date" .none)
  pure ⟨title, url, ty, description, duration, source, published_date⟩

/-- The `RoadmapNode(...)` construction of `structure_agent` (graph.py lines
334-343): `node_data["id"]`, `node_data["title"]`, `node_data["description"]`
and `node_data["level"]` raise `KeyError` when missing (required fields);
the remaining fields use `.get` with defaults; each resource goes through
`Resource(**r)`. -/
def convertNode (v : PyVal) : Option RoadmapNode := do
  let kvs ← asDict v
  let id ← (lookupKey kvs "id").bind asStr
  let title ← (lookupKey kvs "title").bind asStr
  let description ← (lookupKey kvs "description").bind asStr
  let level ← (lookupKey kvs "level").bind asInt
  let parent_id ← asOptStr (lookupD kvs "parent_id" .none)
  let resList ← asList (lookupD kvs "resources" (.list []))
  let resources ← mapOpt convertResource resList
  let prereqList ← asList (lookupD kvs "prerequisites" (.list []))
  let prerequisites ← mapOpt asStr prereqList
  let estimated_time ← asOptStr (lookupD kvs "estimated_time" .none)
  pure ⟨id, title, description, level, parent_id, resources, prerequisites,
        estimated_time⟩

/-! ## The pipeline state (`AgentState`, graph.py lines 29-38) -/

/-- The shared state threaded through the agents.  `is_valid` and
`validation_message` hold whatever values `result.get` produced (the
`TypedDict` annotation is not enforced at runtime), so they are `PyVal`;
`current_agent` and `error` are only ever assigned string literals /
f-strings by the code. -/
structure AgentState where
  query : String
  is_valid : PyVal
  validation_message : PyVal
  research_data : List PyVal
  roadmap_structure : PyVal
  nodes : List RoadmapNode
  current_agent : String
  error : String

/-- The initial state built by `generate_roadmap` (graph.py lines 433-442). -/
def initialState (q : String) : AgentState :=
  { query := q
  , is_valid := .bool false
  , validation_message := .str ""
  , research_data := []
  , roadmap_structure := .dict []
  , nodes := []
  , current_agent := ""
  , error := "" }

/-- Stands in for Python's `str(e)` on a caught exception: the precise text
is produced by the Python runtime and is not modeled; only the fact that the
surrounding f-string is non-empty matters to the pipeline. -/
def pyExcMsg : String := "(exception detail)"

/-! ## The search tool (`utils/search.py`)

`SerperSearchTool` holds the feature flag (`search_enabled`, already
adjusted for a missing API key by `__init__`) and performs `requests.post`
calls against the Serper endpoint.  `post` maps a request payload to
`Option.none` (a transport exception) or `some (statusCode, body)` where
`body = Option.none` models `response.json()` raising. -/

structure SearchEnv where
  enabled : Bool
  post : PyVal → Option (Nat × Option PyVal)

/-- Python `x in s` substring containment on char lists. -/
def containsSub (l sub : List Char) : Bool :=
  sub.isPrefixOf l ||
    match l with
    | [] => false
    | _ :: t => containsSub t sub

/-- The dict appended for one YouTube organic result
(search.py lines 64-70). -/
def ytItem (kvs : List (String × PyVal)) : PyVal :=
  .dict [("title", lookupD kvs "title" (.str ""))
        ,("url", lookupD kvs "link" (.str ""))
        ,("description", lookupD kvs "snippet" (.str ""))
        ,("type", .str "video")
        ,("source", .str "YouTube")]

/-- The filtering loop of `search_youtube` (lines 61-71): keep results whose
`link` contains `youtube.com`; `result.get` on a non-dict and `in` on a
non-string link raise. -/
def ytCollect : List PyVal → Option (List PyVal)
  | [] => some []
  | r :: rs => do
      let kvs ← asDict r
      let link ← asStr (lookupD kvs "link" (.str ""))
      let rest ← ytCollect rs
      if containsSub link.toList "youtube.com".toList then
        pure (ytItem kvs :: rest)
      else
        pure rest

/-- The `try` body of `search_youtube` (lines 38-72): build the payload,
post, return `[]` on a non-200 status, else read `organic[:max_results]`
and filter. -/
def ytCompute (env : SearchEnv) (q : String) (n : Nat) : Option (List PyVal) := do
  let payload := PyVal.dict
    [("q", .str (q ++ " tutorial 2025 site:youtube.com")), ("num", .int n)]
  let (status, body) ← env.post payload
  if status == 200 then do
    let results ← body
    let kvs ← asDict results
    let organic ← asList (lookupD kvs "organic" (.list []))
    ytCollect (organic.take n)
  else
    pure []

/-- `search_youtube` (search.py lines 33-75): disabled → `[]`; any exception
in the body → `[]`. -/
def search_youtube (env : SearchEnv) (q : String) (n : Nat) : List PyVal :=
  if env.enabled then (ytCompute env q n).getD [] else []

/-- The course platforms with their `platform.split('.')[0].title()`
source labels (search.py lines 83, 105). -/
def coursePlatforms : List (String × String) :=
  [("coursera.org", "Coursera"), ("udemy.com", "Udemy"), ("edx.org", "Edx")]

/-- One course entry (lines 100-106). -/
def courseItem (src : String) (kvs : List (String × PyVal)) : PyVal :=
  .dict [("title", lookupD kvs "title" (.str ""))
        ,("url", lookupD kvs "link" (.str ""))
        ,("description", lookupD kvs "snippet" (.str ""))
        ,("type", .str "course")
        ,("source", .str src)]

/-- The platform loop of `search_courses` (lines 88-109): post per platform
with `num = 2`, append the first two organic results on a 200 status (a
non-200 platform is skipped, not an error), and break as soon as
`len(courses) >= max_results`. -/
def coursesLoop (env : SearchEnv) (q : String) (n : Nat) :
    List (String × String) → List PyVal → Option (List PyVal)
  | [], acc => some acc
  | (plat, src) :: rest, acc => do
      let payload := PyVal.dict
        [("q", .str (q ++ " course site:" ++ plat)), ("num", .int 2)]
      let (status, body) ← env.post payload
      if status == 200 then do
        let results ← body
        let kvs ← asDict results
        let organic ← asList (lookupD kvs "organic" (.list []))
        let items ← mapOpt (fun r => (asDict r).map (courseItem src)) (organic.take 2)
        let acc' := acc ++ items
        if n ≤ acc'.length then pure acc' else coursesLoop env q n rest acc'
      else
        if n ≤ acc.length then pure acc else coursesLoop env q n rest acc

/-- `search_courses` (search.py lines 77-114): returns
`courses[:max_results]`, or `[]` when disabled or on an exception. -/
def search_courses (env : SearchEnv) (q : String) (n : Nat) : List PyVal :=
  if env.enabled then
    match coursesLoop env q n coursePlatforms [] with
    | some cs => cs.take n
    | Option.none => []
  else []

/-- The domain markers used by the documentation filter (line 141). -/
def docTerms : List String :=
  ["docs.", "documentation", "guide", "readthedocs", "github.io"]

/-- One documentation entry (lines 142-148). -/
def docItem (kvs : List (String × PyVal)) : PyVal :=
  .dict [("title", lookupD kvs "title" (.str ""))
        ,("url", lookupD kvs "link" (.str ""))
        ,("description", lookupD kvs "snippet" (.str ""))
        ,("type", .str "documentation")
        ,("source", .str "Official Docs")]

/-- The filtering loop of `search_documentation` (lines 138-148). -/
def docsCollect : List PyVal → Option (List PyVal)
  | [] => some []
  | r :: rs => do
      let kvs ← asDict r
      let link ← asStr (lookupD kvs "link" (.str ""))
      let rest ← docsCollect rs
      if docTerms.any (fun t => containsSub link.toList t.toList) then
        pure (docItem kvs :: rest)
      else
        pure rest

/-- The `try` body of `search_documentation` (lines 121-150). -/
def docsCompute (env : SearchEnv) (q : String) (n : Nat) : Option (List PyVal) := do
  let payload := PyVal.dict
    [("q", .str (q ++ " official documentation")), ("num", .int n)]
  let (status, body) ← env.post payload
  if status == 200 then do
    let results ← body
    let kvs ← asDict results
    let organic ← asList (lookupD kvs "organic" (.list []))
    docsCollect (organic.take n)
  else
    pure []

/-- `search_documentation` (search.py lines 116-153). -/
def search_documentation (env : SearchEnv) (q : String) (n : Nat) : List PyVal :=
  if env.enabled then (docsCompute env q n).getD [] else []

/-- The keywords of the book filter (line 186). -/
def bookTerms : List String := ["book", "edition", "author", "published", "isbn"]

/-- The book filter
`any(term in title.lower() or term in snippet.lower() for term in ...)`
(lines 185-186).  `title.lower()` is always evaluated; `snippet.lower()` is
first evaluated only if `"book" in title.lower()` is false (short-circuit),
so a non-string snippet raises exactly in that case. -/
def bookMatch (titleLower : String) (snippetV : PyVal) : Option Bool :=
  if containsSub titleLower.toList "book".toList then some true
  else
    match snippetV with
    | .str s => some (bookTerms.any (fun t =>
        containsSub titleLower.toList t.toList ||
        containsSub s.toLower.toList t.toList))
    | _ => Option.none

/-- The result loop of `search_books` (lines 179-196): filter by
`bookMatch`, append, break when `len(books) >= max_results`. -/
def booksLoop (n : Nat) : List PyVal → List PyVal → Option (List PyVal)
  | [], acc => some acc
  | r :: rs, acc => do
      let kvs ← asDict r
      let title ← asStr (lookupD kvs "title" (.str ""))
      let link := lookupD kvs "link" (.str "")
      let snippet := lookupD kvs "snippet" (.str "")
      let isBook ← bookMatch title.toLower snippet
      let acc' :=
        if isBook then
          acc ++ [PyVal.dict [("title", .str title), ("url", link)
                             ,("description", snippet), ("type", .str "book")
                             ,("source", .str "Book")]]
        else acc
      if n ≤ acc'.length then pure acc' else booksLoop n rs acc'

/-- The `try` body of `search_books` (lines 160-198): payload with
`num = max_results + 2`, `[]` on non-200, else loop over all organic
results. -/
def booksCompute (env : SearchEnv) (q : String) (n : Nat) : Option (List PyVal) := do
  let payload := PyVal.dict
    [("q", .str (q ++ " book programming technical best recommended"))
    ,("num", .int (n + 2))]
  let (status, body) ← env.post payload
  if status == 200 then do
    let results ← body
    let kvs ← asDict results
    let organic ← asList (lookupD kvs "organic" (.list []))
    booksLoop n organic []
  else
    pure []

/-- `search_books` (search.py lines 155-201): returns
`books[:max_results]`, or `[]` when disabled or on an exception. -/
def search_books (env : SearchEnv) (q : String) (n : Nat) : List PyVal :=
  if env.enabled then
    match booksCompute env q n with
    | some bs => bs.take n
    | Option.none => []
  else []

/-- `search_general` (search.py lines 203-231): the body references
`GoogleSearch`, which is never imported in `utils/search.py`, so the first
statement of the `try` block raises `NameError` and the handler returns
`[]`; when disabled it returns `[]` up front. -/
def search_general (env : SearchEnv) (_q : String) (_n : Nat) : List PyVal :=
  if env.enabled then [] else []

/-! ## The agents (`agents/graph.py`)

Each agent's one `llm.invoke` call is modeled by the corresponding response
text carried in the `Oracle`; `json.loads` by the abstract `parse` field
(`Option.none` = `json.JSONDecodeError`).  `research_agent` additionally
reads the `SEARCH_ENABLED` flag and constructs a `SerperSearchTool`, both
carried by the oracle. -/

structure Oracle where
  vResp : String
  rResp : String
  sResp : String
  parse : String → Option PyVal
  searchEnabled : Bool
  env : SearchEnv

/-- `validation_agent` (graph.py lines 56-95).  On a successful parse to a
dict: `is_valid` and `validation_message` come from `result.get` (with
defaults `False` and `""`) and `current_agent` becomes `"validation"`.  On a
parse failure, or `result.get` raising because the parsed value is not a
dict: `is_valid = False`, a diagnostic message, and
`error = "Validation parsing error: " + response.content[:200]`. -/
def validation_agent (o : Oracle) (s : AgentState) : AgentState :=
  match o.parse (extract_json o.vResp) with
  | some (.dict kvs) =>
      { s with is_valid := lookupD kvs "is_valid" (.bool false)
             , validation_message := lookupD kvs "message" (.str "")
             , current_agent := "validation" }
  | _ =>
      { s with is_valid := .bool false
             , validation_message :=
                 .str ("Failed to validate query: " ++ pyExcMsg)
             , error := "Validation parsing error: " ++ o.vResp.take 200 }

/-- The placeholder resource synthesized per subtopic when search is
disabled (graph.py lines 212-220). -/
def placeholderFor (subTitle : PyVal) : PyVal :=
  .dict [("title", .str ("Learn " ++ pyStr subTitle))
        ,("url", .str "https://example.com")
        ,("type", .str "course")
        ,("description", .str ("Comprehensive guide to " ++ pyStr subTitle))
        ,("source", .str "LLM Suggestion")]

/-- Disabled-search subtopic enrichment (lines 210-220):
`subtopic["resources"] = [placeholder]`, reading `subtopic['title']`
(`KeyError` when missing, `TypeError` on a non-dict). -/
def enrichSubtopicDisabled (sub : PyVal) : Option PyVal := do
  let kvs ← asDict sub
  let st ← lookupKey kvs "title"
  pure (.dict (setKey kvs "resources" (.list [placeholderFor st])))

/-- Disabled-search topic enrichment (lines 207-220):
`topic["resources"] = []`, `topic["books"] = []`, then the subtopic loop
over `topic.get("subtopics", [])`. -/
def enrichTopicDisabled (topic : PyVal) : Option PyVal := do
  let kvs ← asDict topic
  let kvs1 := setKey kvs "resources" (.list [])
  let kvs2 := setKey kvs1 "books" (.list [])
  match lookupKey kvs2 "subtopics" with
  | Option.none => pure (.dict kvs2)
  | some sv => do
      let subs ← asList sv
      let subs' ← mapOpt enrichSubtopicDisabled subs
      pure (.dict (setKey kvs2 "subtopics" (.list subs')))

/-- Enabled-search subtopic enrichment (lines 189-198): the narrower query
is the f-string joining the topic and subtopic titles, and
`resources = sub_videos + sub_courses + sub_docs` with caps 2 / 1 / 1. -/
def enrichSubtopicEnabled (env : SearchEnv) (topicTitle : PyVal)
    (sub : PyVal) : Option PyVal := do
  let kvs ← asDict sub
  let st ← lookupKey kvs "title"
  let q := pyStr topicTitle ++ " " ++ pyStr st
  let rs := search_youtube env q 2 ++ search_courses env q 1 ++
            search_documentation env q 1
  pure (.dict (setKey kvs "resources" (.list rs)))

/-- Enabled-search topic enrichment (lines 162-203): topic-level searches
with caps 4 / 3 / 2 (plus 3 books), the subtopic loop, then
`topic["resources"]` and `topic["books"]` are assigned.  `topic['title']`
is read first (line 166). -/
def enrichTopicEnabled (env : SearchEnv) (topic : PyVal) : Option PyVal := do
  let kvs ← asDict topic
  let titleV ← lookupKey kvs "title"
  let tq := pyStr titleV
  let videos := search_youtube env tq 4
  let courses := search_courses env tq 3
  let docs := search_documentation env tq 2
  let books := search_books env tq 3
  let topicResources := videos ++ courses ++ docs
  let kvs1 ←
    match lookupKey kvs "subtopics" with
    | Option.none => pure kvs
    | some sv => do
        let subs ← asList sv
        let subs' ← mapOpt (enrichSubtopicEnabled env titleV) subs
        pure (setKey kvs "subtopics" (.list subs'))
  let kvs2 := setKey kvs1 "resources" (.list topicResources)
  let kvs3 := setKey kvs2 "books" (.list books)
  pure (.dict kvs3)

/-- The `try` body of `research_agent` (lines 151-224): parse the
completion, then enrich each entry of `topics_structure.get("topics", [])`
in place (when the key is absent the loop runs over the default `[]` and
the structure is unchanged). -/
def researchCompute (o : Oracle) : Option PyVal := do
  let result ← o.parse (extract_json o.rResp)
  let kvs ← asDict result
  match lookupKey kvs "topics" with
  | Option.none => pure result
  | some tv => do
      let ts ← asList tv
      let ts' ← mapOpt
        (if o.searchEnabled then enrichTopicEnabled o.env
         else enrichTopicDisabled) ts
      pure (.dict (setKey kvs "topics" (.list ts')))

/-- `research_agent` (graph.py lines 98-230).  Success assigns
`research_data = [topics_structure]` and `current_agent = "research"`; any
exception is converted to `research_data = []` plus an error message. -/
def research_agent (o : Oracle) (s : AgentState) : AgentState :=
  match researchCompute o with
  | some t => { s with research_data := [t], current_agent := "research" }
  | Option.none =>
      { s with research_data := []
             , error := "Research parsing error: " ++ pyExcMsg }

/-- The conversion loop of `structure_agent` (lines 331-344) applied to
`result.get("nodes", [])`. -/
def structCompute (result : PyVal) : Option (List RoadmapNode) := do
  let kvs ← asDict result
  let nodesList ← asList (lookupD kvs "nodes" (.list []))
  mapOpt convertNode nodesList

/-- `structure_agent` (graph.py lines 233-363).  The raw parsed object is
stored in `roadmap_structure` (line 329) *before* the typed conversion, so
a conversion failure leaves it populated while `nodes` is reset to `[]` and
`error` is set; `current_agent` is only updated on full success. -/
def structure_agent (o : Oracle) (s : AgentState) : AgentState :=
  match o.parse (extract_json o.sResp) with
  | Option.none =>
      { s with nodes := []
             , error := "Structure parsing error: " ++ pyExcMsg }
  | some result =>
      match structCompute result with
      | some ns =>
          { s with roadmap_structure := result, nodes := ns
                 , current_agent := "structure" }
      | Option.none =>
          { s with roadmap_structure := result, nodes := []
                 , error := "Structure parsing error: " ++ pyExcMsg }

/-! ## Router and orchestrator (graph.py lines 366-447) -/

/-- `should_continue` (graph.py lines 366-384): the error gate first, then
the `current_agent` chain. -/
def should_continue (s : AgentState) : String :=
  if s.error ≠ "" then "end"
  else if s.current_agent = "" then "validation"
  else if s.current_agent = "validation" then
    if s.is_valid.truthy then "research" else "end"
  else if s.current_agent = "research" then "structure"
  else if s.current_agent = "structure" then "end"
  else "end"

/-- One LangGraph super-step: run the node, then merge the returned state
into the channels — `research_data` is an `operator.add` channel, so the
returned list is appended to the previous value; every other field is a
last-value channel. -/
def applyStage (f : AgentState → AgentState) (s : AgentState) : AgentState :=
  let r := f s
  { r with research_data := s.research_data ++ r.research_data }

/-- The stage function a router label resolves to (the node map of
`create_roadmap_graph`, lines 392-394); `"end"` (or anything else) maps to
`Option.none` = `END`. -/
def stageFor (o : Oracle) : String → Option (AgentState → AgentState)
  | "validation" => some (validation_agent o)
  | "research" => some (research_agent o)
  | "structure" => some (structure_agent o)
  | _ => Option.none

/-- The orchestration loop: consult the router, stop on `END`, otherwise
run the chosen stage as one super-step.  The fuel bounds the number of
super-steps (LangGraph's recursion limit); the entry point `validation`
coincides with the router's answer on the initial state. -/
def runLoop (o : Oracle) : Nat → AgentState → AgentState
  | 0, s => s
  | n + 1, s =>
      match stageFor o (should_continue s) with
      | Option.none => s
      | some f => runLoop o n (applyStage f s)

/-- `generate_roadmap` (graph.py lines 429-447): build the initial state
and run the compiled graph (LangGraph's default recursion limit is 25
super-steps, far more than the pipeline can use). -/
def generate_roadmap (o : Oracle) (q : String) : AgentState :=
  runLoop o 25 (initialState q)

/-! ## Concrete fixtures used by counterexamples and witnesses -/

/-- `d.get(k)` on a modeled value (dict lookup, else failure). -/
def dictGet (v : PyVal) (k : String) : Option PyVal :=
  match v with
  | .dict kvs => lookupKey kvs k
  | _ => Option.none

/-- The topic list of an enriched topic structure. -/
def topicsOf (t : PyVal) : List PyVal :=
  match dictGet t "topics" with
  | some (.list l) => l
  | _ => []

/-- The subtopic list of a topic. -/
def subtopicsOf (topic : PyVal) : List PyVal :=
  match dictGet topic "subtopics" with
  | some (.list l) => l
  | _ => []

/-- The subtopic carries exactly the placeholder resource built from its
own title. -/
def subHasPlaceholder (sub : PyVal) : Prop :=
  ∃ st, dictGet sub "title" = some st ∧
    dictGet sub "resources" = some (.list [placeholderFor st])

/-- Whether an optional parse result is a Python dict (the only shape on
which `result.get` does not raise). -/
def isDictOpt : Option PyVal → Bool
  | some (.dict _) => true
  | _ => false

/-- A bare JSON object (it begins at its opening brace and ends at its
closing brace, and is valid JSON) on which `extract_json` is NOT the
identity: the fenced-block regex matches inside the string value and
returns the inner span. -/
def c5bad : String := "\x7b\"a\": \"```json \x7bb\x7d```\"\x7d"

/-- A 250-character completion with no JSON payload. -/
def longResp : String := String.mk (List.replicate 250 'a')

/-- A search environment that is switched off. -/
def envDown : SearchEnv := { enabled := false, post := fun _ => Option.none }

/-- An oracle whose LLM output never parses and whose search always fails;
used to instantiate universally quantified orchestration statements. -/
def oNull : Oracle :=
  { vResp := "", rResp := "", sResp := ""
  , parse := fun _ => Option.none, searchEnabled := false
  , env := { enabled := false, post := fun _ => Option.none } }

/-- A concrete state carrying an error. -/
def sErr : AgentState := { initialState "q" with error := "boom" }

/-- A concrete state on which the router answers `"end"`. -/
def sEnded : AgentState := { initialState "w" with current_agent := "structure" }

/-- An oracle whose validation completion parses to
`is_valid = False` with a message. -/
def oInvalidQ : Oracle :=
  { vResp := "", rResp := "", sResp := ""
  , parse := fun _ =>
      some (.dict [("is_valid", .bool false), ("message", .str "off-topic")])
  , searchEnabled := false
  , env := { enabled := false, post := fun _ => Option.none } }

/-- An oracle whose validation completion is `longResp` and never parses. -/
def oLongFail : Oracle :=
  { vResp := longResp, rResp := "", sResp := ""
  , parse := fun _ => Option.none, searchEnabled := false
  , env := { enabled := false, post := fun _ => Option.none } }

/-- An oracle whose research completion parses to a topic structure with an
empty topic list. -/
def oRes : Oracle :=
  { vResp := "", rResp := "", sResp := ""
  , parse := fun _ => some (.dict [("topics", .list [])])
  , searchEnabled := false
  , env := { enabled := false, post := fun _ => Option.none } }

/-- The enriched tree `oRes` produces. -/
def tRes : PyVal := .dict [("topics", .list [])]

/-- An oracle whose structuring completion parses to a node list whose only
node lacks the required `id`, `description` and `level` fields. -/
def oBadNode : Oracle :=
  { vResp := "", rResp := "", sResp := ""
  , parse := fun _ =>
      some (.dict [("nodes", .list [.dict [("title", .str "Python")]])])
  , searchEnabled := false
  , env := { enabled := false, post := fun _ => Option.none } }

/-- The raw object `oBadNode`'s structuring completion parses to. -/
def badNodeResult : PyVal :=
  .dict [("nodes", .list [.dict [("title", .str "Python")]])]

/-- An oracle with search disabled whose research completion parses to one
topic with one subtopic. -/
def oDisabled : Oracle :=
  { vResp := "", rResp := "", sResp := ""
  , parse := fun _ =>
      some (.dict [("topics", .list
        [.dict [("title", .str "Topic")
               ,("subtopics", .list [.dict [("title", .str "Sub")]])]])])
  , searchEnabled := false
  , env := { enabled := false, post := fun _ => Option.none } }

/-- The enriched subtopic produced by `oDisabled`. -/
def subD : PyVal :=
  .dict [("title", .str "Sub")
        ,("resources", .list [placeholderFor (.str "Sub")])]

/-- The enriched topic produced by `oDisabled`. -/
def topicD : PyVal :=
  .dict [("title", .str "Topic"), ("subtopics", .list [subD])
        ,("resources", .list []), ("books", .list [])]

/-- The enriched topic tree produced by `oDisabled`. -/
def tD : PyVal := .dict [("topics", .list [topicD])]

/-! ## Lemmas about the payload extractor -/

theorem mk_toList (s : String) : String.mk s.toList = s := by
  cases s
  rfl

theorem lazyBody_none {l : List Char} (h : l.contains '\x7d' = false) :
    lazyBody l = Option.none := by
  induction l with
  | nil => rfl
  | cons c rest ih =>
      rw [List.contains_cons] at h
      simp only [Bool.or_eq_false_iff] at h
      have hc : (c == '\x7d') = false := by
        cases hcc : '\x7d' == c
        · exact beq_false_of_ne (fun he => by simp [he] at hcc)
        · exact absurd hcc (by simp [h.1])
      simp [lazyBody, hc, ih h.2]

theorem afterFence_none {l : List Char} (h : hasBracePair l = false) :
    afterFence l = Option.none := by
  induction l with
  | nil => rfl
  | cons c rest ih =>
      simp only [hasBracePair, Bool.or_eq_false_iff, Bool.and_eq_false_iff] at h
      by_cases hws : isPyWs c
      · simp [afterFence, hws, ih h.2]
      · rcases h.1 with hb | hcl
        · simp [afterFence, hws, hb]
        · by_cases hb : (c == '\x7b') = true
          · simp [afterFence, hws, hb, lazyBody_none hcl]
          · simp [afterFence, hws, hb]

theorem hasBracePair_tail {c : Char} {l : List Char}
    (h : hasBracePair (c :: l) = false) : hasBracePair l = false := by
  simp only [hasBracePair, Bool.or_eq_false_iff] at h
  exact h.2

theorem hasBracePair_drop (n : Nat) {l : List Char}
    (h : hasBracePair l = false) : hasBracePair (l.drop n) = false := by
  induction n generalizing l with
  | zero => simpa using h
  | succ m ih =>
      cases l with
      | nil => simpa using h
      | cons c rest => exact ih (hasBracePair_tail h)

theorem matchFenceAt_none {l : List Char} (h : hasBracePair l = false) :
    matchFenceAt l = Option.none := by
  unfold matchFenceAt
  have h7 : hasBracePair (l.drop 7) = false := hasBracePair_drop 7 h
  by_cases h3 : fenceChars.isPrefixOf l
  · by_cases h4 : jsonTagChars.isPrefixOf (l.drop 3)
    · simp [h3, h4, afterFence_none h7, afterFence_none (hasBracePair_drop 3 h),
            List.drop_drop]
    · simp [h3, h4, afterFence_none (hasBracePair_drop 3 h)]
  · simp [h3]

theorem searchFence_none {l : List Char} (h : hasBracePair l = false) :
    searchFence l = Option.none := by
  induction l with
  | nil => rfl
  | cons c rest ih =>
      simp [searchFence, matchFenceAt_none h, ih (hasBracePair_tail h)]

theorem greedyToLastClose_none {l : List Char}
    (h : l.contains '\x7d' = false) : greedyToLastClose l = Option.none := by
  induction l with
  | nil => rfl
  | cons c rest ih =>
      rw [List.contains_cons] at h
      simp only [Bool.or_eq_false_iff] at h
      have hc : (c == '\x7d') = false := by
        cases hcc : '\x7d' == c
        · exact beq_false_of_ne (fun he => by simp [he] at hcc)
        · exact absurd hcc (by simp [h.1])
      simp [greedyToLastClose, ih h.2, hc]

theorem braceSpan_none {l : List Char} (h : hasBracePair l = false) :
    braceSpan l = Option.none := by
  induction l with
  | nil => rfl
  | cons c rest ih =>
      simp only [hasBracePair, Bool.or_eq_false_iff, Bool.and_eq_false_iff] at h
      rcases h.1 with hb | hcl
      · simp [braceSpan, hb, ih h.2]
      · by_cases hb : (c == '\x7b') = true
        · simp [braceSpan, hb, greedyToLastClose_none hcl, ih h.2]
        · simp [braceSpan, hb, ih h.2]

theorem greedyToLastClose_full {l : List Char}
    (h : l.getLast? = some '\x7d') : greedyToLastClose l = some l := by
  induction l with
  | nil => simp at h
  | cons c rest ih =>
      cases rest with
      | nil =>
          simp only [List.getLast?_singleton, Option.some.injEq] at h
          simp [greedyToLastClose, h]
      | cons c2 t =>
          rw [List.getLast?_cons_cons] at h
          rw [greedyToLastClose, ih h]

/-! ## Claims C5 and C6: the payload extractor -/

/-- C6: `extract_json` is a total Lean function (hence never raises), and on
any input with no opening brace followed by a later closing brace — so that
neither regex can match — it returns the input unchanged. -/
theorem extract_json_no_brace_identity (s : String)
    (h : hasBracePair s.toList = false) : extract_json s = s := by
  unfold extract_json
  rw [searchFence_none h, braceSpan_none h]

/-- Witness for C6 at the concrete brace-free input `"hello"`. -/
theorem extract_json_no_brace_identity_witness :
    hasBracePair "hello".toList = false ∧ extract_json "hello" = "hello" :=
  ⟨by decide, extract_json_no_brace_identity "hello" (by decide)⟩


/-- Counterexample to C5 as stated: `c5bad` begins with an opening brace and
ends with a closing brace, yet `extract_json c5bad = "\x7bb\x7d" ≠ c5bad`. -/
theorem extract_json_not_identity_on_bare_object :
    c5bad.toList.head? = some '\x7b' ∧ c5bad.toList.getLast? = some '\x7d' ∧
    extract_json c5bad ≠ c5bad := by decide

/-- C5 (amended): `extract_json` is the identity (hence idempotent) on every
input that begins at an opening brace and ends at a closing brace, provided
the fenced-code-block regex finds no match inside the input. -/
theorem extract_json_bare_identity (s : String)
    (hf : searchFence s.toList = Option.none)
    (h1 : s.toList.head? = some '\x7b')
    (h2 : s.toList.getLast? = some '\x7d') : extract_json s = s := by
  unfold extract_json
  rw [hf]
  cases hl : s.toList with
  | nil => rw [hl] at h1; simp at h1
  | cons c rest =>
      rw [hl] at h1 h2
      simp only [List.head?_cons, Option.some.injEq] at h1
      cases rest with
      | nil =>
          rw [h1] at h2
          simp at h2
      | cons c2 t =>
          rw [List.getLast?_cons_cons] at h2
          subst h1
          have hfull := greedyToLastClose_full h2
          have hb : braceSpan ('\x7b' :: c2 :: t) = some ('\x7b' :: c2 :: t) := by
            rw [braceSpan, hfull]
            simp
          rw [hb]
          show String.mk ('\x7b' :: c2 :: t) = s
          rw [← hl, mk_toList]

/-- Witness for the amended C5 at the concrete bare object
`"\x7b\"x\": 1\x7d"`. -/
theorem extract_json_bare_identity_witness :
    searchFence ("\x7b\"x\": 1\x7d" : String).toList = Option.none ∧
    extract_json "\x7b\"x\": 1\x7d" = "\x7b\"x\": 1\x7d" :=
  ⟨by decide,
   extract_json_bare_identity "\x7b\"x\": 1\x7d" (by decide) (by decide) (by decide)⟩

/-! ## Lemmas about the router and the orchestration loop -/

theorem append_ne_empty {a b : String} (h : a ≠ "") : a ++ b ≠ "" := by
  obtain ⟨d⟩ := a
  obtain ⟨d2⟩ := b
  intro he
  have hd : d ++ d2 = ([] : List Char) := congrArg String.data he
  rcases List.append_eq_nil.mp hd with ⟨h1, h2⟩
  subst h1
  exact h rfl

theorem applyStage_error (f : AgentState → AgentState) (s : AgentState) :
    (applyStage f s).error = (f s).error := rfl

theorem applyStage_current (f : AgentState → AgentState) (s : AgentState) :
    (applyStage f s).current_agent = (f s).current_agent := rfl

theorem applyStage_nodes (f : AgentState → AgentState) (s : AgentState) :
    (applyStage f s).nodes = (f s).nodes := rfl

theorem applyStage_research_data (f : AgentState → AgentState) (s : AgentState) :
    (applyStage f s).research_data = s.research_data ++ (f s).research_data := rfl

theorem runLoop_end (o : Oracle) (n : Nat) (s : AgentState)
    (h : should_continue s = "end") : runLoop o n s = s := by
  cases n with
  | zero => rfl
  | succ m =>
      have hs : stageFor o (should_continue s) = Option.none := by
        rw [h]
        exact rfl
      rw [runLoop, hs]

theorem runLoop_step (o : Oracle) (m : Nat) (s : AgentState)
    (f : AgentState → AgentState) (hf : stageFor o (should_continue s) = some f) :
    runLoop o (m + 1) s = runLoop o m (applyStage f s) := by
  rw [runLoop, hf]

theorem sc_error {s : AgentState} (h : s.error ≠ "") :
    should_continue s = "end" := by
  simp [should_continue, h]

theorem sc_after_validation {s : AgentState} (he : s.error = "")
    (hc : s.current_agent = "validation") :
    should_continue s = if s.is_valid.truthy then "research" else "end" := by
  simp [should_continue, he, hc]

theorem sc_after_research {s : AgentState} (he : s.error = "")
    (hc : s.current_agent = "research") : should_continue s = "structure" := by
  simp [should_continue, he, hc]

theorem sc_after_structure {s : AgentState} (he : s.error = "")
    (hc : s.current_agent = "structure") : should_continue s = "end" := by
  simp [should_continue, he, hc]

/-- Outcome of `validation_agent`: either the success branch ran
(`current_agent = "validation"`, `error` untouched) or the `except` branch
set a non-empty `error`; neither branch touches `research_data` or
`nodes`. -/
theorem validation_agent_cases (o : Oracle) (s : AgentState) :
    ((validation_agent o s).current_agent = "validation" ∧
     (validation_agent o s).error = s.error ∧
     (validation_agent o s).research_data = s.research_data ∧
     (validation_agent o s).nodes = s.nodes) ∨
    ((validation_agent o s).error ≠ "" ∧
     (validation_agent o s).research_data = s.research_data ∧
     (validation_agent o s).nodes = s.nodes) := by
  have hne : ("Validation parsing error: " : String) ≠ "" := by decide
  rcases hp : o.parse (extract_json o.vResp) with _ | v
  · right
    refine ⟨?_, by simp [validation_agent, hp], by simp [validation_agent, hp]⟩
    simp only [validation_agent, hp]
    exact append_ne_empty hne
  · cases v
    case dict kvs =>
      left
      simp [validation_agent, hp]
    all_goals
      right
      refine ⟨?_, by simp [validation_agent, hp], by simp [validation_agent, hp]⟩
      simp only [validation_agent, hp]
      exact append_ne_empty hne

/-- Outcome of `research_agent`: success (`current_agent = "research"`,
`error` untouched) or the `except` branch with a non-empty `error`; neither
branch touches `nodes`. -/
theorem research_agent_cases (o : Oracle) (s : AgentState) :
    ((research_agent o s).current_agent = "research" ∧
     (research_agent o s).error = s.error ∧
     (research_agent o s).nodes = s.nodes) ∨
    ((research_agent o s).error ≠ "" ∧
     (research_agent o s).nodes = s.nodes) := by
  rcases hr : researchCompute o with _ | t
  · right
    constructor
    · simp only [research_agent, hr]
      decide
    · simp [research_agent, hr]
  · left
    simp [research_agent, hr]

/-- Outcome of `structure_agent`: success (`current_agent = "structure"`,
`error` untouched) or one of the two `except` outcomes, each with a
non-empty `error`. -/
theorem structure_agent_cases (o : Oracle) (s : AgentState) :
    ((structure_agent o s).current_agent = "structure" ∧
     (structure_agent o s).error = s.error) ∨
    (structure_agent o s).error ≠ "" := by
  rcases hp : o.parse (extract_json o.sResp) with _ | result
  · right
    simp only [structure_agent, hp]
    decide
  · rcases hc : structCompute result with _ | ns
    · right
      simp only [structure_agent, hp, hc]
      decide
    · left
      simp [structure_agent, hp, hc]

/-! ## Claims C1, C2 and C4: router and orchestrator -/

/-- C1: whenever `error` is a non-empty string, `should_continue` answers
`"end"` regardless of `current_agent`, and the orchestration loop — with any
amount of fuel — returns the state unchanged: no stage function runs after
an error is recorded and no field is mutated afterwards. -/
theorem error_is_terminal (s : AgentState) (o : Oracle) (n : Nat)
    (h : s.error ≠ "") :
    should_continue s = "end" ∧ runLoop o n s = s := by
  have hsc := sc_error h
  exact ⟨hsc, runLoop_end o n s hsc⟩



/-- Witness for C1 at a concrete errored state. -/
theorem error_is_terminal_witness :
    should_continue sErr = "end" ∧ runLoop oNull 3 sErr = sErr :=
  error_is_terminal sErr oNull 3 (by decide)

/-- C2: from the initial state the loop is finished after 3 super-steps —
any extra fuel changes nothing — and once the router answers `"end"` the
loop never moves again, for every oracle (hence for every query and every
LLM / search behavior). -/
theorem pipeline_reaches_end (o : Oracle) (q : String) (n : Nat) :
    runLoop o (n + 3) (initialState q) = runLoop o 3 (initialState q) ∧
    (∀ s m, should_continue s = "end" → runLoop o m s = s) := by
  refine ⟨?_, fun s m h => runLoop_end o m s h⟩
  have e0 : (initialState q).error = "" := rfl
  have hv : stageFor o (should_continue (initialState q)) =
      some (validation_agent o) := rfl
  rw [runLoop_step o (n + 2) _ _ hv, runLoop_step o 2 _ _ hv]
  set s1 := applyStage (validation_agent o) (initialState q) with hs1
  rcases validation_agent_cases o (initialState q) with ⟨hc, he, _, _⟩ | ⟨he, _, _⟩
  · have he1 : s1.error = "" := by
      rw [hs1, applyStage_error, he]
      rfl
    have hc1 : s1.current_agent = "validation" := by
      rw [hs1, applyStage_current, hc]
    by_cases hv1 : s1.is_valid.truthy
    · have hr : should_continue s1 = "research" := by
        rw [sc_after_validation he1 hc1, if_pos hv1]
      have hvr : stageFor o (should_continue s1) = some (research_agent o) := by
        rw [hr]
        exact rfl
      rw [runLoop_step o (n + 1) _ _ hvr, runLoop_step o 1 _ _ hvr]
      set s2 := applyStage (research_agent o) s1 with hs2
      rcases research_agent_cases o s1 with ⟨hc2, he2, _⟩ | ⟨he2, _⟩
      · have he2' : s2.error = "" := by
          rw [hs2, applyStage_error, he2]
          exact he1
        have hc2' : s2.current_agent = "research" := by
          rw [hs2, applyStage_current, hc2]
        have hr2 : should_continue s2 = "structure" := sc_after_research he2' hc2'
        have hvs : stageFor o (should_continue s2) = some (structure_agent o) := by
          rw [hr2]
          exact rfl
        rw [runLoop_step o n _ _ hvs, runLoop_step o 0 _ _ hvs]
        set s3 := applyStage (structure_agent o) s2 with hs3
        have hend : should_continue s3 = "end" := by
          rcases structure_agent_cases o s2 with ⟨hc3, he3⟩ | he3
          · exact sc_after_structure
              (by rw [hs3, applyStage_error, he3]; exact he2')
              (by rw [hs3, applyStage_current, hc3])
          · exact sc_error (by rw [hs3, applyStage_error]; exact he3)
        rw [runLoop_end o n s3 hend]
        rfl
      · have hend : should_continue s2 = "end" :=
          sc_error (by rw [hs2, applyStage_error]; exact he2)
        rw [runLoop_end o (n + 1) s2 hend, runLoop_end o 1 s2 hend]
    · have hend : should_continue s1 = "end" := by
        rw [sc_after_validation he1 hc1, if_neg hv1]
      rw [runLoop_end o (n + 2) s1 hend, runLoop_end o 2 s1 hend]
  · have hend : should_continue s1 = "end" :=
      sc_error (by rw [hs1, applyStage_error]; exact he)
    rw [runLoop_end o (n + 2) s1 hend, runLoop_end o 2 s1 hend]


/-- Witness for C2 at concrete fuel and a concrete ended state. -/
theorem pipeline_reaches_end_witness :
    runLoop oNull (2 + 3) (initialState "w") = runLoop oNull 3 (initialState "w") ∧
    runLoop oNull 5 sEnded = sEnded :=
  ⟨(pipeline_reaches_end oNull "w" 2).1,
   (pipeline_reaches_end oNull "w" 2).2 sEnded 5 (by decide)⟩

/-- C4: if the validation super-step leaves `error` empty and a falsy
`is_valid`, the whole run stops right there — `generate_roadmap` returns
the post-validation state, whose `research_data` and `nodes` are still the
initial empty lists. -/
theorem invalid_query_terminates (o : Oracle) (q : String)
    (he : (applyStage (validation_agent o) (initialState q)).error = "")
    (hv : (applyStage (validation_agent o) (initialState q)).is_valid.truthy = false) :
    generate_roadmap o q = applyStage (validation_agent o) (initialState q) ∧
    (applyStage (validation_agent o) (initialState q)).research_data = [] ∧
    (applyStage (validation_agent o) (initialState q)).nodes = [] := by
  set s1 := applyStage (validation_agent o) (initialState q) with hs1
  have hrd : s1.research_data = [] := by
    rw [hs1, applyStage_research_data]
    rcases validation_agent_cases o (initialState q) with ⟨_, _, hr, _⟩ | ⟨_, hr, _⟩ <;>
      rw [hr] <;> rfl
  have hnd : s1.nodes = [] := by
    rw [hs1, applyStage_nodes]
    rcases validation_agent_cases o (initialState q) with ⟨_, _, _, hn⟩ | ⟨_, _, hn⟩ <;>
      rw [hn] <;> rfl
  have hc1 : s1.current_agent = "validation" := by
    rcases validation_agent_cases o (initialState q) with ⟨hc, _, _, _⟩ | ⟨herr, _, _⟩
    · rw [hs1, applyStage_current, hc]
    · rw [hs1, applyStage_error] at he
      exact absurd he herr
  have hend : should_continue s1 = "end" := by
    rw [sc_after_validation he hc1, hv]
    rfl
  refine ⟨?_, hrd, hnd⟩
  unfold generate_roadmap
  have hv0 : stageFor o (should_continue (initialState q)) =
      some (validation_agent o) := rfl
  rw [show (25 : Nat) = 24 + 1 from rfl, runLoop_step o 24 _ _ hv0, ← hs1,
      runLoop_end o 24 s1 hend]


/-- Witness for C4 at a concrete rejecting validation oracle. -/
theorem invalid_query_terminates_witness :
    (applyStage (validation_agent oInvalidQ) (initialState "w")).error = "" ∧
    (applyStage (validation_agent oInvalidQ) (initialState "w")).is_valid.truthy = false ∧
    generate_roadmap oInvalidQ "w" =
      applyStage (validation_agent oInvalidQ) (initialState "w") :=
  ⟨by decide, by decide,
   (invalid_query_terminates oInvalidQ "w" (by decide) (by decide)).1⟩

/-! ## Claim C3: validation failure path -/




set_option maxRecDepth 40000 in
/-- Counterexample to C3 as stated: on a parse failure the `error` field is
not a (≤ 200 character) truncation of the raw completion — it is the
diagnostic `"Validation parsing error: "` followed by that truncation, and
its total length exceeds 200. -/
theorem validation_error_not_bare_excerpt :
    (validation_agent oLongFail (initialState "q")).error ≠ longResp.take 200 ∧
    200 < (validation_agent oLongFail (initialState "q")).error.length := by
  constructor
  · decide
  · decide

/-- C3 (amended): on a completion whose extraction/parse fails (or whose
parse result is not a dict, so `result.get` raises), the state gets
`is_valid = False`, a diagnostic `validation_message`, and
`error = "Validation parsing error: "` followed by the first ≤ 200
characters of the raw completion. -/
theorem validation_failure_fields (o : Oracle) (s : AgentState)
    (h : isDictOpt (o.parse (extract_json o.vResp)) = false) :
    validation_agent o s =
      { s with is_valid := .bool false
             , validation_message :=
                 .str ("Failed to validate query: " ++ pyExcMsg)
             , error := "Validation parsing error: " ++ o.vResp.take 200 } := by
  rcases hp : o.parse (extract_json o.vResp) with _ | v
  · simp [validation_agent, hp]
  · rw [hp] at h
    cases v <;> simp_all [validation_agent, isDictOpt, hp]

/-- Witness for the amended C3 at a concrete failing oracle. -/
theorem validation_failure_fields_witness :
    isDictOpt (oNull.parse (extract_json oNull.vResp)) = false ∧
    validation_agent oNull (initialState "q") =
      { initialState "q" with
          is_valid := .bool false
        , validation_message := .str ("Failed to validate query: " ++ pyExcMsg)
        , error := "Validation parsing error: " ++ oNull.vResp.take 200 } :=
  ⟨by decide, validation_failure_fields oNull (initialState "q") (by decide)⟩

/-! ## Claim C8: `research_data` is append-only -/

/-- C8: a successful research super-step extends `research_data` of any
prior state by exactly the newly enriched topic tree, appended at the end
(the node assigns `research_data = [topics_structure]` and the LangGraph
`operator.add` channel concatenates it onto the previous value). -/
theorem research_appends (o : Oracle) (s : AgentState) (t : PyVal)
    (h : researchCompute o = some t) :
    (applyStage (research_agent o) s).research_data =
      s.research_data ++ [t] := by
  rw [applyStage_research_data]
  simp [research_agent, h]



/-- Witness for C8 at a concrete oracle and prior state. -/
theorem research_appends_witness :
    researchCompute oRes = some tRes ∧
    (applyStage (research_agent oRes) (initialState "q")).research_data =
      (initialState "q").research_data ++ [tRes] :=
  ⟨rfl, research_appends oRes (initialState "q") tRes rfl⟩

/-! ## Claim C10: the structuring failure path is not atomic -/

/-- C10: when the structuring completion parses but the typed node
conversion fails, `error` is set and `nodes` is emptied while
`roadmap_structure` keeps the successfully parsed raw object and
`current_agent` is left unchanged. -/
theorem structure_failure_not_atomic (o : Oracle) (s : AgentState)
    (result : PyVal) (hp : o.parse (extract_json o.sResp) = some result)
    (hc : structCompute result = Option.none) :
    (structure_agent o s).error ≠ "" ∧
    (structure_agent o s).nodes = [] ∧
    (structure_agent o s).roadmap_structure = result ∧
    (structure_agent o s).current_agent = s.current_agent := by
  refine ⟨?_, by simp [structure_agent, hp, hc],
          by simp [structure_agent, hp, hc], by simp [structure_agent, hp, hc]⟩
  simp only [structure_agent, hp, hc]
  decide



/-- Witness for C10 at a concrete oracle whose node conversion fails. -/
theorem structure_failure_not_atomic_witness :
    oBadNode.parse (extract_json oBadNode.sResp) = some badNodeResult ∧
    structCompute badNodeResult = Option.none ∧
    (structure_agent oBadNode (initialState "q")).roadmap_structure =
      badNodeResult :=
  ⟨rfl, rfl,
   (structure_failure_not_atomic oBadNode (initialState "q") badNodeResult
      rfl rfl).2.2.1⟩

/-! ## Claim C7: placeholder resources when search is disabled -/





theorem lookupKey_setKey_self (kvs : List (String × PyVal)) (k : String)
    (v : PyVal) : lookupKey (setKey kvs k v) k = some v := by
  induction kvs with
  | nil => simp [setKey, lookupKey]
  | cons kv rest ih =>
      obtain ⟨k0, v0⟩ := kv
      by_cases h : k0 = k
      · simp [setKey, h, lookupKey]
      · simp [setKey, h, lookupKey, ih]

theorem lookupKey_setKey_ne (kvs : List (String × PyVal)) {k k' : String}
    (v : PyVal) (h : k' ≠ k) :
    lookupKey (setKey kvs k v) k' = lookupKey kvs k' := by
  have hk : k ≠ k' := Ne.symm h
  induction kvs with
  | nil => simp [setKey, lookupKey, hk]
  | cons kv rest ih =>
      obtain ⟨k0, v0⟩ := kv
      by_cases h0 : k0 = k
      · subst h0
        have hk0 : k0 ≠ k' := hk
        simp [setKey, lookupKey, hk0]
      · simp [setKey, h0, lookupKey, ih]

theorem mapOpt_mem {α β : Type} {f : α → Option β} :
    ∀ {l : List α} {l' : List β}, mapOpt f l = some l' →
      ∀ b ∈ l', ∃ a ∈ l, f a = some b := by
  intro l
  induction l with
  | nil =>
      intro l' h b hb
      simp only [mapOpt, Option.some.injEq] at h
      subst h
      simp at hb
  | cons a as ih =>
      intro l' h b hb
      unfold mapOpt at h
      rcases hfa : f a with _ | b0 <;> rw [hfa] at h
      · simp at h
      · rcases hrest : mapOpt f as with _ | bs <;> rw [hrest] at h
        · simp at h
        · simp only [Option.some.injEq] at h
          subst h
          rcases List.mem_cons.mp hb with hb0 | hbs
          · exact ⟨a, List.mem_cons_self a as, by rw [hfa, hb0]⟩
          · obtain ⟨a', ha', hfa'⟩ := ih hrest b hbs
            exact ⟨a', List.mem_cons_of_mem a ha', hfa'⟩

theorem asDict_some {v : PyVal} {kvs : List (String × PyVal)}
    (h : asDict v = some kvs) : v = .dict kvs := by
  cases v <;> simp_all [asDict]

/-- The disabled-search subtopic enrichment yields a subtopic whose
`resources` entry is exactly one placeholder built from its `title`. -/
theorem enrichSubtopicDisabled_placeholder {sub sub' : PyVal}
    (h : enrichSubtopicDisabled sub = some sub') : subHasPlaceholder sub' := by
  unfold enrichSubtopicDisabled at h
  simp only [Option.bind_eq_bind, Option.pure_def, Option.bind_eq_some,
    Option.some.injEq] at h
  obtain ⟨kvs, _, st, ht, hs⟩ := h
  subst hs
  refine ⟨st, ?_, ?_⟩
  · show lookupKey (setKey kvs "resources" (.list [placeholderFor st]))
        "title" = some st
    rw [lookupKey_setKey_ne kvs _ (by decide)]
    exact ht
  · exact lookupKey_setKey_self kvs "resources" _

/-- The disabled-search topic enrichment gives every subtopic of the
result the placeholder property. -/
theorem enrichTopicDisabled_placeholder {topic topic' : PyVal}
    (h : enrichTopicDisabled topic = some topic') :
    ∀ sub ∈ subtopicsOf topic', subHasPlaceholder sub := by
  unfold enrichTopicDisabled at h
  simp only [Option.bind_eq_bind, Option.pure_def, Option.bind_eq_some] at h
  obtain ⟨kvs, _, h⟩ := h
  rcases hsub : lookupKey (setKey (setKey kvs "resources" (.list []))
      "books" (.list [])) "subtopics" with _ | sv <;> rw [hsub] at h
  · simp only [Option.some.injEq] at h
    subst h
    intro sub hs
    simp only [subtopicsOf, dictGet, hsub] at hs
    simp at hs
  · simp only [Option.bind_eq_bind, Option.pure_def, Option.bind_eq_some,
      Option.some.injEq] at h
    obtain ⟨subs, _, subs', hm, hs⟩ := h
    subst hs
    intro sub hs
    simp only [subtopicsOf, dictGet, lookupKey_setKey_self] at hs
    obtain ⟨a, _, ha⟩ := mapOpt_mem hm sub hs
    exact enrichSubtopicDisabled_placeholder ha

/-- C7: when search is disabled and the research completion parses, every
subtopic of every topic of the enriched topic tree carries exactly the
single placeholder resource (a `"Learn <title>"` course pointing at the
non-functional `https://example.com`). -/
theorem disabled_search_placeholders (o : Oracle) (t : PyVal)
    (hd : o.searchEnabled = false) (h : researchCompute o = some t) :
    ∀ topic ∈ topicsOf t, ∀ sub ∈ subtopicsOf topic, subHasPlaceholder sub := by
  unfold researchCompute at h
  simp only [Option.bind_eq_bind, Option.pure_def, Option.bind_eq_some] at h
  obtain ⟨result, _, kvs, hdc, h⟩ := h
  rcases ht : lookupKey kvs "topics" with _ | tv <;> rw [ht] at h
  · simp only [Option.some.injEq] at h
    subst h
    intro topic htopic
    have hres := asDict_some hdc
    subst hres
    simp only [topicsOf, dictGet, ht] at htopic
    simp at htopic
  · rw [hd] at h
    simp only [Option.bind_eq_bind, Option.pure_def, Option.bind_eq_some,
      Option.some.injEq, Bool.false_eq_true, if_false] at h
    obtain ⟨ts, _, ts', hm, hs⟩ := h
    subst hs
    intro topic htopic
    simp only [topicsOf, dictGet, lookupKey_setKey_self] at htopic
    obtain ⟨a, _, ha⟩ := mapOpt_mem hm topic htopic
    exact enrichTopicDisabled_placeholder ha





/-- Witness for C7 at the concrete disabled-search oracle. -/
theorem disabled_search_placeholders_witness :
    oDisabled.searchEnabled = false ∧ researchCompute oDisabled = some tD ∧
    subHasPlaceholder subD :=
  ⟨rfl, rfl,
   disabled_search_placeholders oDisabled tD rfl rfl topicD
     (List.mem_singleton_self topicD) subD (List.mem_singleton_self subD)⟩

/-! ## Claim C9: the search operations degrade to `[]`, never raise -/

/-- When every post raises, the platform loop of `search_courses` fails on
its first platform (the exception propagates to the handler). -/
theorem coursesLoop_postfail (env : SearchEnv) (q : String) (n : Nat)
    (hpost : ∀ p, env.post p = Option.none) (pl : String × String)
    (rest : List (String × String)) (acc : List PyVal) :
    coursesLoop env q n (pl :: rest) acc = Option.none := by
  obtain ⟨p1, p2⟩ := pl
  rw [coursesLoop, hpost]
  rfl

/-- When every post comes back with a non-200 status, the platform loop of
`search_courses` skips every platform and returns its accumulator. -/
theorem coursesLoop_non200 (env : SearchEnv) (q : String) (n : Nat)
    (hpost : ∀ p, ∃ cj, env.post p = some cj ∧ cj.1 ≠ 200) :
    ∀ plats acc, coursesLoop env q n plats acc = some acc := by
  intro plats
  induction plats with
  | nil => intro acc; rfl
  | cons pl rest ih =>
      intro acc
      obtain ⟨pl1, pl2⟩ := pl
      obtain ⟨⟨c, j⟩, hp, hc⟩ := hpost (PyVal.dict
        [("q", .str (q ++ " course site:" ++ pl1)), ("num", .int 2)])
      have hc' : ¬ (c = 200) := by simpa using hc
      rw [coursesLoop, hp]
      simp only [Option.bind_eq_bind, Option.some_bind]
      have hcb : ¬ ((c == 200) = true) := by simp [hc']
      rw [if_neg hcb]
      by_cases hlen : n ≤ acc.length
      · rw [if_pos hlen]
        rfl
      · rw [if_neg hlen]
        exact ih acc

/-- C9: each discovery operation (video, course, documentation, book,
general) is a total function that returns `[]` — instead of propagating an
exception — when search is disabled, when every post raises a transport
exception, or when every post returns a non-200 status.  `search_general`
always returns `[]` when enabled because its body's `GoogleSearch` name is
never imported (`NameError`, caught by the handler). -/
theorem searches_degrade (env : SearchEnv) (q : String) (n : Nat)
    (h : env.enabled = false ∨ (∀ p, env.post p = Option.none) ∨
         (∀ p, ∃ cj, env.post p = some cj ∧ cj.1 ≠ 200)) :
    search_youtube env q n = [] ∧ search_courses env q n = [] ∧
    search_documentation env q n = [] ∧ search_books env q n = [] ∧
    search_general env q n = [] := by
  rcases h with hd | hpost | hpost
  · simp [search_youtube, search_courses, search_documentation, search_books,
      search_general, hd]
  · by_cases he : env.enabled
    · have hcl : coursesLoop env q n coursePlatforms [] = Option.none :=
        coursesLoop_postfail env q n hpost ("coursera.org", "Coursera")
          [("udemy.com", "Udemy"), ("edx.org", "Edx")] []
      refine ⟨?_, ?_, ?_, ?_, ?_⟩
      · simp [search_youtube, ytCompute, he, hpost]
      · simp [search_courses, he, hcl]
      · simp [search_documentation, docsCompute, he, hpost]
      · simp [search_books, booksCompute, he, hpost]
      · simp [search_general, he]
    · simp [search_youtube, search_courses, search_documentation, search_books,
        search_general, he]
  · by_cases he : env.enabled
    · refine ⟨?_, ?_, ?_, ?_, ?_⟩
      · obtain ⟨⟨c, j⟩, hp, hc⟩ := hpost (PyVal.dict
          [("q", .str (q ++ " tutorial 2025 site:youtube.com")), ("num", .int n)])
        have hc' : ¬ (c = 200) := by simpa using hc
        simp [search_youtube, ytCompute, he, hp, hc']
      · simp [search_courses, he, coursesLoop_non200 env q n hpost]
      · obtain ⟨⟨c, j⟩, hp, hc⟩ := hpost (PyVal.dict
          [("q", .str (q ++ " official documentation")), ("num", .int n)])
        have hc' : ¬ (c = 200) := by simpa using hc
        simp [search_documentation, docsCompute, he, hp, hc']
      · obtain ⟨⟨c, j⟩, hp, hc⟩ := hpost (PyVal.dict
          [("q", .str (q ++ " book programming technical best recommended"))
          ,("num", .int (n + 2))])
        have hc' : ¬ (c = 200) := by simpa using hc
        simp [search_books, booksCompute, he, hp, hc']
      · simp [search_general, he]
    · simp [search_youtube, search_courses, search_documentation, search_books,
        search_general, he]


/-- Witness for C9 at a concrete disabled environment. -/
theorem searches_degrade_witness :
    search_youtube envDown "python" 4 = [] ∧
    search_courses envDown "python" 4 = [] ∧
    search_documentation envDown "python" 4 = [] ∧
    search_books envDown "python" 4 = [] ∧
    search_general envDown "python" 4 = [] :=
  searches_degrade envDown "python" 4 (Or.inl rfl)
